import Mathlib

/-!
Verification of the airport-operations dashboard (schema + page handlers).

The embedding translates, from the repository source:
  * the SQL schema and row-level-security policies (schema file),
  * the page-level mutation handlers (Flights.tsx, Runways.tsx,
    Passengers.tsx, Alerts.tsx, ATCPanel.tsx, Admin.tsx) and the
    `logActivity` helper (lib/supabase.ts).

Database ids (`gen_random_uuid()`) are modelled as natural numbers;
timestamps as integers (milliseconds, matching `Date.getTime()`);
a JS `Date.toISOString()` round-trip is kept as the integer itself.
The outcome of a store call (`{ error }` from the client library) is
modelled by an explicit success flag `dbOk` passed to each handler:
`dbOk = true` is the path where `error` is null.
-/

/-! ### Enumerations (schema: CREATE TYPE ...) -/

inductive Role
  | admin
  | atc
  | staff
deriving DecidableEq, Repr, Fintype

inductive FlightStatus
  | scheduled
  | boarding
  | delayed
  | departed
  | landed
  | cancelled
  | emergency
deriving DecidableEq, Repr, Fintype

inductive RunwayStatus
  | available
  | occupied
  | maintenance
  | closed
deriving DecidableEq, Repr, Fintype

inductive BoardingStatus
  | checked_in
  | boarding
  | boarded
  | no_show
deriving DecidableEq, Repr, Fintype

inductive AlertSeverity
  | info
  | warning
  | critical
  | emergency
deriving DecidableEq, Repr, Fintype

/-! ### Row-level security policies (schema file)

Postgres RLS semantics: permissive policies for the same command are
OR-ed; a `FOR ALL` policy applies to every command; `has_role(auth.uid(), r)`
is evaluated here with the acting user's role given directly.  The entities
are the six tables the claims mention. -/

inductive Entity
  | runway
  | flight
  | passenger
  | alert
  | userRole
  | activityLog
deriving DecidableEq, Repr, Fintype

inductive DBOp
  | select
  | insert
  | update
  | delete
deriving DecidableEq, Repr, Fintype

/-- The authorization decision of the row-level policies, per role, table and
command, translated policy by policy from the schema file:
runways: view-all + "Admin and ATC can manage runways" (ALL);
flights: view-all + "Admin and ATC can manage flights" (ALL)
         + "Staff can update flight status" (UPDATE, `USING has_role(staff)`);
passengers: view-all + "Admin and staff can manage passengers" (ALL,
         admin OR staff OR atc);
alerts: view-all + "Admin and ATC can manage alerts" (ALL)
         + "Staff can insert alerts" (INSERT, admin OR atc OR staff);
user_roles: "Users can view roles" + "Admins can manage roles" (ALL);
activity_log: view-all + "All authenticated can insert activity"
         (INSERT, `WITH CHECK auth.uid() = user_id`; the row-ownership
         check is `rlsActivityInsertRowCheck` below), no UPDATE/DELETE policy. -/
def rlsAllows (r : Role) (e : Entity) (o : DBOp) : Bool :=
  match e, o with
  | .runway, .select => true
  | .runway, _ => decide (r = .admin) || decide (r = .atc)
  | .flight, .select => true
  | .flight, .update =>
      (decide (r = .admin) || decide (r = .atc)) || decide (r = .staff)
  | .flight, _ => decide (r = .admin) || decide (r = .atc)
  | .passenger, .select => true
  | .passenger, _ =>
      decide (r = .admin) || decide (r = .staff) || decide (r = .atc)
  | .alert, .select => true
  | .alert, .insert =>
      (decide (r = .admin) || decide (r = .atc)) || decide (r = .staff)
  | .alert, _ => decide (r = .admin) || decide (r = .atc)
  | .userRole, .select => true
  | .userRole, _ => decide (r = .admin)
  | .activityLog, .select => true
  | .activityLog, .insert => true
  | .activityLog, _ => false

/-- Row condition of the activity_log INSERT policy:
`WITH CHECK (auth.uid() = user_id)`. -/
def rlsActivityInsertRowCheck (actorId : Nat) (rowUserId : Option Nat) : Bool :=
  decide (some actorId = rowUserId)

/-- Updatable columns of the flights table (schema, minus the generated
id / created_at / updated_at columns). -/
inductive FlightColumn
  | flight_number
  | airline
  | origin
  | destination
  | status
  | scheduled_departure
  | scheduled_arrival
  | actual_departure
  | actual_arrival
  | runway_id
  | gate
  | aircraft_type
  | capacity
  | created_by
  | notes
deriving DecidableEq, Repr, Fintype

/-- Column-level view of the flights UPDATE decision implemented by the
policies.  Both UPDATE policies ("Admin and ATC can manage flights",
"Staff can update flight status") carry only role predicates and no
`WITH CHECK` on columns, so the decision is independent of which column an
update changes. -/
def rlsFlightUpdateColumnAllowed (r : Role) (_c : FlightColumn) : Bool :=
  rlsAllows r .flight .update

/-- Modelled from the spec (section 4.2 table), for comparison with the
policy embedding: per-role write/read decision, where a flight UPDATE by
staff counts as allowed because the table grants staff a
status-field update. -/
def specCanPerform (r : Role) (e : Entity) (o : DBOp) : Bool :=
  match e, o with
  | .runway, .select => true
  | .runway, _ => decide (r = .admin) || decide (r = .atc)
  | .flight, .select => true
  | .flight, .update =>
      decide (r = .admin) || decide (r = .atc) || decide (r = .staff)
  | .flight, _ => decide (r = .admin) || decide (r = .atc)
  | .passenger, .select => true
  | .passenger, _ =>
      decide (r = .admin) || decide (r = .atc) || decide (r = .staff)
  | .alert, .select => true
  | .alert, .insert =>
      decide (r = .admin) || decide (r = .atc) || decide (r = .staff)
  | .alert, _ => decide (r = .admin) || decide (r = .atc)
  | .userRole, .select => true
  | .userRole, _ => decide (r = .admin)
  | .activityLog, .select => true
  | .activityLog, .insert => true
  | .activityLog, _ => false

/-- Modelled from the spec (section 4.2, Flight row): "admin, atc (full);
staff (status-field update only)". -/
def specFlightUpdateColumnAllowed (r : Role) (c : FlightColumn) : Bool :=
  match r with
  | .admin => true
  | .atc => true
  | .staff => decide (c = .status)

/-! ### Table rows (schema: CREATE TABLE ...) -/

structure Runway where
  id : Nat
  name : String
  length_meters : Int
  status : RunwayStatus
  surface_type : String
  notes : Option String
deriving DecidableEq, Repr

structure Flight where
  id : Nat
  flight_number : String
  airline : String
  origin : String
  destination : String
  status : FlightStatus
  scheduled_departure : Int
  scheduled_arrival : Int
  actual_departure : Option Int
  actual_arrival : Option Int
  runway_id : Option Nat
  gate : Option String
  aircraft_type : String
  capacity : Int
  created_by : Option Nat
  notes : Option String
deriving DecidableEq, Repr

structure Passenger where
  id : Nat
  flight_id : Nat
  first_name : String
  last_name : String
  passport_number : String
  seat_number : Option String
  ticket_id : String
  boarding_status : BoardingStatus
  nationality : String
deriving DecidableEq, Repr

structure Alert where
  id : Nat
  title : String
  message : String
  severity : AlertSeverity
  flight_id : Option Nat
  runway_id : Option Nat
  is_active : Bool
  is_acknowledged : Bool
  acknowledged_by : Option Nat
  acknowledged_at : Option Int
  created_by : Option Nat
deriving DecidableEq, Repr

/-- activity_log row (the `details` JSONB map is not tracked; the claims
only concern which entries exist). -/
structure LogEntry where
  user_id : Nat
  action : String
  entity_type : String
  entity_id : Option Nat
deriving DecidableEq, Repr

/-- user_roles row.  The schema constraint is `UNIQUE (user_id, role)`
(see `insertUserRole`). -/
structure UserRoleRow where
  user_id : Nat
  role : Role
deriving DecidableEq, Repr

/-- The whole stored state the handlers read and write. -/
structure DBState where
  flights : List Flight
  runways : List Runway
  passengers : List Passenger
  alerts : List Alert
  user_roles : List UserRoleRow
  activity_log : List LogEntry
deriving DecidableEq, Repr

/-! ### Store primitives -/

/-- `.update(patch).eq("id", i)`: apply `u` to every row whose id is `i`. -/
def updateWhereId {α : Type} (idOf : α → Nat) (xs : List α) (i : Nat)
    (u : α → α) : List α :=
  xs.map fun x => if idOf x = i then u x else x

@[simp] theorem updateWhereId_nil {α : Type} (idOf : α → Nat) (i : Nat)
    (u : α → α) : updateWhereId idOf [] i u = [] := rfl

@[simp] theorem updateWhereId_cons {α : Type} (idOf : α → Nat) (a : α)
    (xs : List α) (i : Nat) (u : α → α) :
    updateWhereId idOf (a :: xs) i u =
      (if idOf a = i then u a else a) :: updateWhereId idOf xs i u := rfl

/-- Finding a row by id after an id-preserving update finds the updated row. -/
theorem find?_updateWhereId {α : Type} (idOf : α → Nat) (xs : List α)
    (i : Nat) (u : α → α) (hu : ∀ x, idOf (u x) = idOf x) (g : α)
    (h : xs.find? (fun x => decide (idOf x = i)) = some g) :
    (updateWhereId idOf xs i u).find? (fun x => decide (idOf x = i)) =
      some (u g) := by
  induction xs with
  | nil => simp [List.find?] at h
  | cons a as ih =>
    by_cases ha : idOf a = i
    · rw [List.find?] at h
      simp only [ha, decide_True] at h
      cases h
      simp [List.find?, ha, hu]
    · rw [List.find?] at h
      simp only [ha, decide_False] at h
      have hcons : updateWhereId idOf (a :: as) i u =
          a :: updateWhereId idOf as i u := by
        simp [ha]
      rw [hcons, List.find?]
      simp only [ha, decide_False]
      exact ih h

/-- After an update of the rows with id `i`, every row carrying id `i`
satisfies any property guaranteed by the update function. -/
theorem updated_row_prop {α : Type} (idOf : α → Nat) (P : α → Prop)
    (xs : List α) (i : Nat) (u : α → α)
    (hP : ∀ x, idOf x = i → P (u x)) :
    ∀ y ∈ updateWhereId idOf xs i u, idOf y = i → P y := by
  intro y hy hyi
  rcases List.mem_map.mp hy with ⟨x, hx, hxy⟩
  by_cases hxi : idOf x = i
  · simp only [hxi, if_pos] at hxy
    exact hxy ▸ hP x hxi
  · simp only [hxi, if_neg, not_false_iff] at hxy
    exact absurd (hxy ▸ hyi) hxi

/-- An update that leaves a projection unchanged leaves the projected list
unchanged. -/
theorem map_updateWhereId {α β : Type} (idOf : α → Nat) (proj : α → β)
    (xs : List α) (i : Nat) (u : α → α)
    (hp : ∀ x, proj (u x) = proj x) :
    (updateWhereId idOf xs i u).map proj = xs.map proj := by
  induction xs with
  | nil => rfl
  | cons a as ih =>
    by_cases ha : idOf a = i <;> simp [ha, hp, ih]

/-- lib/supabase.ts `logActivity`: fire-and-forget append of one
activity_log row. -/
def logActivity (s : DBState) (userId : Nat) (action : String)
    (entityType : String) (entityId : Option Nat) : DBState :=
  { s with activity_log :=
      s.activity_log ++ [{ user_id := userId, action := action,
                           entity_type := entityType, entity_id := entityId }] }

@[simp] theorem logActivity_flights (s : DBState) (u : Nat) (a t : String)
    (i : Option Nat) : (logActivity s u a t i).flights = s.flights := rfl

@[simp] theorem logActivity_runways (s : DBState) (u : Nat) (a t : String)
    (i : Option Nat) : (logActivity s u a t i).runways = s.runways := rfl

@[simp] theorem logActivity_passengers (s : DBState) (u : Nat) (a t : String)
    (i : Option Nat) : (logActivity s u a t i).passengers = s.passengers := rfl

@[simp] theorem logActivity_alerts (s : DBState) (u : Nat) (a t : String)
    (i : Option Nat) : (logActivity s u a t i).alerts = s.alerts := rfl

@[simp] theorem logActivity_log_length (s : DBState) (u : Nat) (a t : String)
    (i : Option Nat) :
    (logActivity s u a t i).activity_log.length =
      s.activity_log.length + 1 := by
  simp [logActivity]

/-! ### Shared status helpers -/

/-- The literal status list `("landed","cancelled","departed")`: it is the
runway-release condition in ATCPanel.executeAction and the exclusion filter
of the assigned-flight / active-flight queries (Runways.fetchAssignedFlights,
ATCPanel.fetchData). -/
def terminalStatus : FlightStatus → Bool
  | .landed | .cancelled | .departed => true
  | _ => false

/-- Wire text of a flight status (the enum labels). -/
def statusText : FlightStatus → String
  | .scheduled => "scheduled"
  | .boarding => "boarding"
  | .delayed => "delayed"
  | .departed => "departed"
  | .landed => "landed"
  | .cancelled => "cancelled"
  | .emergency => "emergency"

/-- Wire text of a runway status. -/
def runwayStatusText : RunwayStatus → String
  | .available => "available"
  | .occupied => "occupied"
  | .maintenance => "maintenance"
  | .closed => "closed"

/-- Wire text of an alert severity. -/
def severityText : AlertSeverity → String
  | .info => "info"
  | .warning => "warning"
  | .critical => "critical"
  | .emergency => "emergency"

/-! ### Ticket generation (schema default of passengers.ticket_id) -/

/-- Uppercase hexadecimal digit table: the image of `upper(...)` on one
digit of an md5 digest. -/
def upperHexChar : Nat → Char
  | 0 => '0'
  | 1 => '1'
  | 2 => '2'
  | 3 => '3'
  | 4 => '4'
  | 5 => '5'
  | 6 => '6'
  | 7 => '7'
  | 8 => '8'
  | 9 => '9'
  | 10 => 'A'
  | 11 => 'B'
  | 12 => 'C'
  | 13 => 'D'
  | 14 => 'E'
  | _ => 'F'

/-- Schema default for ticket_id:
`'TKT-' || upper(substr(md5(random()::text), 1, 8))`.  The md5 digest is
modelled as its list of hexadecimal digits (each value below 16; the
catch-all of `upperHexChar` is never reached on such input). -/
def genTicketId (digest : List Nat) : String :=
  ("TKT-") ++ String.mk ((digest.take 8).map upperHexChar)

/-- An uppercase-alphanumeric character, the class `[A-Z0-9]`. -/
def isUpperAlnum (c : Char) : Bool :=
  (decide (48 ≤ c.toNat) && decide (c.toNat ≤ 57)) ||
  (decide (65 ≤ c.toNat) && decide (c.toNat ≤ 90))

/-- Whether a string matches the anchored pattern `TKT-[A-Z0-9]{8}`:
the first four characters are the literal prefix and the remaining eight
are uppercase alphanumerics. -/
def matchesTicketPattern (str : String) : Bool :=
  decide (str.toList.take 4 = [ 'T', 'K', 'T', '-' ]) &&
  decide ((str.toList.drop 4).length = 8) &&
  (str.toList.drop 4).all isUpperAlnum

/-! ### user_roles schema constraint -/

/-- INSERT into user_roles under the schema constraint
`UNIQUE (user_id, role)`: the row is rejected only when the exact
(user_id, role) pair already exists. -/
def insertUserRole (t : List UserRoleRow) (row : UserRoleRow) :
    Option (List UserRoleRow) :=
  if t.any fun x => decide (x.user_id = row.user_id) &&
      decide (x.role = row.role) then none
  else some (t ++ [row])

/-! ### Flights page handlers (Flights.tsx) -/

namespace Flights

/-- The add/edit form state. `none` for a datetime field models the empty
`datetime-local` input. -/
structure Form where
  flight_number : String
  airline : String
  origin : String
  destination : String
  status : FlightStatus
  scheduled_departure : Option Int
  scheduled_arrival : Option Int
  runway_id : Option Nat
  gate : String
  aircraft_type : String
  capacity : Int
  notes : String
deriving DecidableEq, Repr

/-- handleSave validation guard: all required fields present. -/
def formValid (f : Form) : Bool :=
  !(decide (f.flight_number = "")) && !(decide (f.airline = "")) &&
  !(decide (f.origin = "")) && !(decide (f.destination = "")) &&
  f.scheduled_departure.isSome && f.scheduled_arrival.isSome

/-- The payload built in handleSave (uppercasing, empty-to-null coercions,
created_by). -/
def payload (uid : Nat) (newId : Nat) (f : Form) : Flight :=
  { id := newId,
    flight_number := f.flight_number.toUpper,
    airline := f.airline,
    origin := f.origin.toUpper,
    destination := f.destination.toUpper,
    status := f.status,
    scheduled_departure := f.scheduled_departure.getD 0,
    scheduled_arrival := f.scheduled_arrival.getD 0,
    actual_departure := none,
    actual_arrival := none,
    runway_id := f.runway_id,
    gate := if f.gate = ("") then none else some f.gate,
    aircraft_type := f.aircraft_type,
    capacity := f.capacity,
    created_by := some uid,
    notes := if f.notes = ("") then none else some f.notes }

/-- handleSave: update when `editId` is set, insert otherwise.  The update
patch carries exactly the payload keys, so `id` and the two actual
timestamps of the stored row are preserved. -/
def handleSave (dbOk : Bool) (s : DBState) (uid : Nat) (editId : Option Nat)
    (form : Form) : DBState :=
  if !(formValid form) then s
  else
    match editId with
    | some fid =>
        if dbOk then
          let p := payload uid 0 form
          let fs := updateWhereId Flight.id s.flights fid fun g =>
            { p with id := g.id,
                     actual_departure := g.actual_departure,
                     actual_arrival := g.actual_arrival }
          logActivity { s with flights := fs } uid
            (("Updated flight ") ++ p.flight_number) ("flight") (some fid)
        else s
    | none =>
        if dbOk then
          let p := payload uid s.flights.length form
          logActivity { s with flights := s.flights ++ [p] } uid
            (("Added flight ") ++ p.flight_number) ("flight") none
        else s

/-- handleDelete, with the schema cascades: passengers of the flight are
deleted (`ON DELETE CASCADE`), alerts referencing it likewise. -/
def handleDelete (dbOk : Bool) (s : DBState) (uid : Nat) (fid : Nat) :
    DBState :=
  if dbOk then
    let fnum := ((s.flights.find? fun g => decide (g.id = fid)).map
      Flight.flight_number).getD ("")
    let s1 := { s with
      flights := s.flights.filter fun g => !(decide (g.id = fid)),
      passengers := s.passengers.filter fun p => !(decide (p.flight_id = fid)),
      alerts := s.alerts.filter fun a => !(decide (a.flight_id = some fid)) }
    logActivity s1 uid (("Deleted flight ") ++ fnum) ("flight") (some fid)
  else s

/-- The direct status-change path of the flights table view: the update
patch is `{ status: newStatus }` and nothing else. -/
def handleStatusChange (dbOk : Bool) (s : DBState) (uid : Nat)
    (flightId : Nat) (newStatus : FlightStatus) : DBState :=
  if dbOk then
    let fnum := ((s.flights.find? fun g => decide (g.id = flightId)).map
      Flight.flight_number).getD ("")
    let fs := updateWhereId Flight.id s.flights flightId fun g =>
      { g with status := newStatus }
    logActivity { s with flights := fs } uid
      (("Changed ") ++ fnum ++ (" status to ") ++ statusText newStatus)
      ("flight") (some flightId)
  else s

end Flights

/-! ### Runways page handlers (Runways.tsx) -/

namespace Runways

structure Form where
  name : String
  length_meters : Int
  status : RunwayStatus
  surface_type : String
  notes : String
deriving DecidableEq, Repr

/-- handleSave: validation requires a name; update or insert. -/
def handleSave (dbOk : Bool) (s : DBState) (uid : Nat) (editId : Option Nat)
    (form : Form) : DBState :=
  if form.name = ("") then s
  else
    let p : Runway :=
      { id := 0, name := form.name,
        length_meters := form.length_meters, status := form.status,
        surface_type := form.surface_type,
        notes := if form.notes = ("") then none else some form.notes }
    match editId with
    | some rid =>
        if dbOk then
          let rs := updateWhereId Runway.id s.runways rid fun r =>
            { p with id := r.id }
          logActivity { s with runways := rs } uid
            (("Updated runway ") ++ p.name) ("runway") (some rid)
        else s
    | none =>
        if dbOk then
          logActivity
            { s with runways := s.runways ++ [{ p with id := s.runways.length }] }
            uid (("Created runway ") ++ p.name) ("runway") none
        else s

/-- handleDelete, with the schema referential actions: flights referencing
the runway get `runway_id` nulled out (`ON DELETE SET NULL`), alerts
referencing it are deleted (`ON DELETE CASCADE`). -/
def handleDelete (dbOk : Bool) (s : DBState) (uid : Nat) (rid : Nat) :
    DBState :=
  if dbOk then
    let rname := ((s.runways.find? fun r => decide (r.id = rid)).map
      Runway.name).getD ("")
    let s1 := { s with
      runways := s.runways.filter fun r => !(decide (r.id = rid)),
      flights := s.flights.map fun g =>
        if g.runway_id = some rid then { g with runway_id := none } else g,
      alerts := s.alerts.filter fun a => !(decide (a.runway_id = some rid)) }
    logActivity s1 uid (("Deleted runway ") ++ rname) ("runway") (some rid)
  else s

/-- fetchAssignedFlights: is some flight with non-null runway_id equal to
`rid` and status outside ("landed","cancelled","departed") present?
(The page keys the fetched rows by runway_id; the guard only tests
presence of the key.) -/
def hasActiveAssignment (s : DBState) (rid : Nat) : Bool :=
  s.flights.any fun f =>
    decide (f.runway_id = some rid) && !(terminalStatus f.status)

/-- Result of the runway status-change handler: `conflict` is the
early-return branch that refuses to set an assigned runway available. -/
structure SetStatusResult where
  conflict : Bool
  state : DBState
deriving DecidableEq, Repr

/-- handleStatusChange of the runways page: reject `available` while an
active flight is assigned; otherwise update the status and log. -/
def handleStatusChange (dbOk : Bool) (s : DBState) (uid : Nat)
    (runwayId : Nat) (newStatus : RunwayStatus) : SetStatusResult :=
  if decide (newStatus = .available) && hasActiveAssignment s runwayId then
    { conflict := true, state := s }
  else if dbOk then
    let rname := ((s.runways.find? fun r => decide (r.id = runwayId)).map
      Runway.name).getD ("")
    let rs := updateWhereId Runway.id s.runways runwayId fun r =>
      { r with status := newStatus }
    { conflict := false,
      state := logActivity { s with runways := rs } uid
        (("Changed ") ++ rname ++ (" status to ") ++ runwayStatusText newStatus)
        ("runway") (some runwayId) }
  else { conflict := false, state := s }

end Runways

/-! ### Passengers page handlers (Passengers.tsx) -/

namespace Passengers

/-- The add/edit form state; `none` for flight_id models no selection. -/
structure Form where
  flight_id : Option Nat
  first_name : String
  last_name : String
  passport_number : String
  seat_number : String
  nationality : String
  boarding_status : BoardingStatus
deriving DecidableEq, Repr

/-- handleSave validation guard. -/
def formValid (f : Form) : Bool :=
  f.flight_id.isSome && !(decide (f.first_name = "")) &&
  !(decide (f.last_name = "")) && !(decide (f.passport_number = ""))

/-- handleSave.  On insert, ticket_id comes from the schema default applied
to the md5 digest `digest`; a collision with a stored ticket violates the
UNIQUE constraint, which surfaces as a store error (no insert, no log). -/
def handleSave (dbOk : Bool) (s : DBState) (uid : Nat) (editId : Option Nat)
    (form : Form) (digest : List Nat) : DBState :=
  if !(formValid form) then s
  else
    match editId with
    | some pid =>
        if dbOk then
          let ps := updateWhereId Passenger.id s.passengers pid fun p =>
            { p with flight_id := form.flight_id.getD 0,
                     first_name := form.first_name,
                     last_name := form.last_name,
                     passport_number := form.passport_number,
                     seat_number := if form.seat_number = ("") then none
                                    else some form.seat_number,
                     nationality := if form.nationality = ("") then ("Unknown")
                                    else form.nationality,
                     boarding_status := form.boarding_status }
          logActivity { s with passengers := ps } uid
            (("Updated passenger ") ++ form.first_name ++ (" ") ++ form.last_name)
            ("passenger") (some pid)
        else s
    | none =>
        let tid := genTicketId digest
        if dbOk && !(s.passengers.any fun p => decide (p.ticket_id = tid)) then
          let p : Passenger :=
            { id := s.passengers.length,
              flight_id := form.flight_id.getD 0,
              first_name := form.first_name,
              last_name := form.last_name,
              passport_number := form.passport_number,
              seat_number := if form.seat_number = ("") then none
                             else some form.seat_number,
              ticket_id := tid,
              boarding_status := form.boarding_status,
              nationality := if form.nationality = ("") then ("Unknown")
                             else form.nationality }
          logActivity { s with passengers := s.passengers ++ [p] } uid
            (("Added passenger ") ++ form.first_name ++ (" ") ++ form.last_name)
            ("passenger") none
        else s

def handleDelete (dbOk : Bool) (s : DBState) (uid : Nat) (pid : Nat) :
    DBState :=
  if dbOk then
    let pname := ((s.passengers.find? fun p => decide (p.id = pid)).map
      fun p => p.first_name ++ (" ") ++ p.last_name).getD ("")
    logActivity
      { s with passengers := s.passengers.filter fun p => !(decide (p.id = pid)) }
      uid (("Removed passenger ") ++ pname) ("passenger") (some pid)
  else s

def handleBoardingUpdate (dbOk : Bool) (s : DBState) (uid : Nat) (pid : Nat)
    (newStatus : BoardingStatus) : DBState :=
  if dbOk then
    let ps := updateWhereId Passenger.id s.passengers pid fun p =>
      { p with boarding_status := newStatus }
    logActivity { s with passengers := ps } uid
      ("Updated boarding status") ("passenger") (some pid)
  else s

end Passengers

/-! ### Alerts page handlers (Alerts.tsx) -/

namespace Alerts

/-- handleAcknowledge: a single unconditional update of the alert row; no
guard reads the current acknowledgement state. -/
def handleAcknowledge (dbOk : Bool) (s : DBState) (uid : Nat) (now : Int)
    (alertId : Nat) : DBState :=
  if dbOk then
    let as := updateWhereId Alert.id s.alerts alertId fun a =>
      { a with is_acknowledged := true, acknowledged_by := some uid,
               acknowledged_at := some now, is_active := false }
    logActivity { s with alerts := as } uid ("Acknowledged alert") ("alert")
      (some alertId)
  else s

/-- handleCreate: validation requires title and message. -/
def handleCreate (dbOk : Bool) (s : DBState) (uid : Nat)
    (title message : String) (severity : AlertSeverity)
    (flightId : Option Nat) : DBState :=
  if decide (title = "") || decide (message = "") then s
  else if dbOk then
    let a : Alert :=
      { id := s.alerts.length, title := title, message := message,
        severity := severity, flight_id := flightId, runway_id := none,
        is_active := true, is_acknowledged := false,
        acknowledged_by := none, acknowledged_at := none,
        created_by := some uid }
    logActivity { s with alerts := s.alerts ++ [a] } uid
      (("Created ") ++ severityText severity ++ (" alert: ") ++ title)
      ("alert") none
  else s

end Alerts

/-! ### ATC panel handlers (ATCPanel.tsx) -/

namespace ATCPanel

/-- executeAction: the ATC-confirmed transition.  The update patch starts
as `{ status }`, gains `actual_departure`/`actual_arrival` stamps for
departed/landed, and — when the target status is in the release list and
the flight holds a runway — the runway is set available FIRST and
`runway_id: null` is added to the patch.  Only then is the flight row
updated; on a flight-update error nothing further happens (no log entry,
no alert). -/
def executeAction (flightUpdOk : Bool) (s : DBState) (uid : Nat) (now : Int)
    (flightId : Nat) (title : String) (newStatus : FlightStatus)
    (emergencyNote : String) : DBState :=
  let f? := s.flights.find? fun g => decide (g.id = flightId)
  let flightNumber := (f?.map Flight.flight_number).getD ("")
  let rid? : Option Nat :=
    if terminalStatus newStatus then f?.bind Flight.runway_id else none
  let s1 : DBState :=
    match rid? with
    | some rid =>
        let rs := updateWhereId Runway.id s.runways rid fun r =>
          { r with status := .available }
        { s with runways := rs }
    | none => s
  if flightUpdOk then
    let fs := updateWhereId Flight.id s1.flights flightId fun g =>
      { g with status := newStatus,
               actual_departure :=
                 if newStatus = .departed then some now else g.actual_departure,
               actual_arrival :=
                 if newStatus = .landed then some now else g.actual_arrival,
               runway_id := if rid?.isSome then none else g.runway_id }
    let s3 := logActivity { s1 with flights := fs } uid
      (("ATC: ") ++ title ++ (" for ") ++ flightNumber) ("flight")
      (some flightId)
    if decide (newStatus = .emergency) || decide (newStatus = .cancelled) then
      let a : Alert :=
        { id := s3.alerts.length,
          title := if newStatus = .emergency
                   then ("EMERGENCY: ") ++ flightNumber
                   else ("Flight Cancelled: ") ++ flightNumber,
          message := if emergencyNote = ("")
                     then flightNumber ++ (" status changed to ") ++
                       statusText newStatus
                     else emergencyNote,
          severity := if newStatus = .emergency then .emergency else .critical,
          flight_id := some flightId, runway_id := none,
          is_active := true, is_acknowledged := false,
          acknowledged_by := none, acknowledged_at := none,
          created_by := some uid }
      { s3 with alerts := s3.alerts ++ [a] }
    else s3
  else s1

/-- handleDelay: shift both schedule times of the page's copy `f` of the
flight by `delayMinutes * 60000` milliseconds, set status delayed, store
the reason (or keep the old notes when the reason is empty), then log one
activity entry and insert one warning alert. -/
def handleDelay (dbOk : Bool) (s : DBState) (uid : Nat) (f : Flight)
    (delayMinutes : Int) (delayReason : String) : DBState :=
  let newDep := f.scheduled_departure + delayMinutes * 60000
  let newArr := f.scheduled_arrival + delayMinutes * 60000
  if dbOk then
    let fs := updateWhereId Flight.id s.flights f.id fun g =>
      { g with status := .delayed,
               scheduled_departure := newDep,
               scheduled_arrival := newArr,
               notes := if delayReason = ("") then f.notes
                        else some delayReason }
    let s2 := logActivity { s with flights := fs } uid
      (("Delayed ") ++ f.flight_number) ("flight") (some f.id)
    let a : Alert :=
      { id := s2.alerts.length,
        title := ("Flight Delayed: ") ++ f.flight_number,
        message := f.flight_number ++ (" delayed. Reason: ") ++
          (if delayReason = ("") then ("Not specified") else delayReason),
        severity := .warning,
        flight_id := some f.id, runway_id := none,
        is_active := true, is_acknowledged := false,
        acknowledged_by := none, acknowledged_at := none,
        created_by := some uid }
    { s2 with alerts := s2.alerts ++ [a] }
  else s

/-- The UI default of the delay-minutes field. -/
def defaultDelayMinutes : Int := 30

end ATCPanel

/-! ### Admin page handler (Admin.tsx) -/

namespace Admin

/-- handleRoleChange: the intended effect of
`upsert([{user_id, role}], onConflict user_id)` — replace the user's role
row, otherwise insert one.  (Whether the schema offers a unique constraint
matching that conflict target is examined via `insertUserRole`.)  The
source contains no `logActivity` call in this handler. -/
def handleRoleChange (dbOk : Bool) (s : DBState) (userId : Nat)
    (newRole : Role) : DBState :=
  if dbOk then
    if s.user_roles.any fun x => decide (x.user_id = userId) then
      let rs := s.user_roles.map fun x =>
        if x.user_id = userId then { x with role := newRole } else x
      { s with user_roles := rs }
    else
      { s with user_roles := s.user_roles ++ [{ user_id := userId, role := newRole }] }
  else s

end Admin

/-! ### Concrete fixtures -/

def runway1 : Runway :=
  { id := 10, name := ("R01L"), length_meters := 3000, status := .occupied,
    surface_type := ("asphalt"), notes := none }

def flight1 : Flight :=
  { id := 1, flight_number := ("AA100"), airline := ("AA"),
    origin := ("JFK"), destination := ("LAX"), status := .boarding,
    scheduled_departure := 1000000, scheduled_arrival := 2000000,
    actual_departure := none, actual_arrival := none,
    runway_id := some 10, gate := some ("A1"), aircraft_type := ("B737"),
    capacity := 180, created_by := some 1, notes := none }

def baseState : DBState :=
  { flights := [flight1], runways := [runway1], passengers := [],
    alerts := [], user_roles := [], activity_log := [] }

def ackAlert : Alert :=
  { id := 5, title := ("Engine check"), message := ("inspect"),
    severity := .warning, flight_id := none, runway_id := none,
    is_active := false, is_acknowledged := true,
    acknowledged_by := some 1, acknowledged_at := some 100,
    created_by := some 1 }

def ackState : DBState :=
  { flights := [], runways := [], passengers := [], alerts := [ackAlert],
    user_roles := [], activity_log := [] }

/-! ### Claims -/

/-- C1: For all roles, entities and operations the row-level policy
decision matches the spec table at role×entity×operation granularity, but
the claim's "a staff role may update only the status field of a Flight"
fails on the policies: the staff UPDATE policy carries no column
restriction, so a staff update of, e.g., the airline column is permitted
by the policies while the table restricts staff to the status field. -/
theorem C1_policy_table_vs_spec :
    (∀ r e o, rlsAllows r e o = specCanPerform r e o) ∧
    rlsFlightUpdateColumnAllowed Role.staff FlightColumn.airline = true ∧
    specFlightUpdateColumnAllowed Role.staff FlightColumn.airline = false := by
  refine ⟨?_, rfl, rfl⟩
  decide

/-- C8: the user_roles constraint is `UNIQUE (user_id, role)`, not a
uniqueness keyed by the user alone: inserting a second, different role row
for the same user passes the constraint, leaving user 7 with two stored
roles. -/
theorem C8_pair_constraint_allows_two_roles :
    insertUserRole [{ user_id := 7, role := Role.staff }]
        { user_id := 7, role := Role.atc } =
      some [{ user_id := 7, role := Role.staff },
            { user_id := 7, role := Role.atc }] ∧
    (([{ user_id := 7, role := Role.staff },
       { user_id := 7, role := Role.atc }] : List UserRoleRow).filter
        fun x => decide (x.user_id = 7)).length = 2 := by
  decide

/-- C2 counterexample: the direct status-change path of the flights page
sets flight AA100 to departed while its runway_id stays non-null and the
runway row keeps its previous status — refuting "every code path that sets
the status" releases the runway. -/
theorem C2_counterexample_direct_path :
    ((Flights.handleStatusChange true baseState 1 1 .departed).flights.find?
        fun g => decide (g.id = 1)).map
      (fun g => (g.status, g.runway_id)) =
      some (FlightStatus.departed, some 10) ∧
    (Flights.handleStatusChange true baseState 1 1 .departed).runways =
      [runway1] := by
  decide

/-- C4 counterexample: alert 5 is already acknowledged by user 1 at time
100; a second acknowledge by user 2 at time 200 neither no-ops nor fails —
it overwrites acknowledged_by and acknowledged_at. -/
theorem C4_counterexample_second_ack_overwrites :
    ((ackState.alerts.find? fun a => decide (a.id = 5)).map
      fun a => (a.acknowledged_by, a.acknowledged_at)) =
        some (some 1, some 100) ∧
    (((Alerts.handleAcknowledge true ackState 2 200 5).alerts.find?
        fun a => decide (a.id = 5)).map
      fun a => (a.acknowledged_by, a.acknowledged_at)) =
        some (some 2, some 200) := by
  decide

/-- C5 counterexample: from a state satisfying the claimed invariant, one
direct status change produces a flight whose status is departed (so its
status has passed through departed) with actual_departure still unset. -/
theorem C5_counterexample_departed_without_stamp :
    ((Flights.handleStatusChange true baseState 1 1 .departed).flights.find?
        fun g => decide (g.id = 1)).map
      (fun g => (g.status, g.actual_departure)) =
      some (FlightStatus.departed, none) := by
  decide

/-- C7 counterexample: a successful setRole (Admin.handleRoleChange)
stores the new role yet appends no ActivityLogEntry. -/
theorem C7_counterexample_setRole_unlogged :
    (Admin.handleRoleChange true baseState 7 Role.atc).activity_log =
      baseState.activity_log ∧
    (Admin.handleRoleChange true baseState 7 Role.atc).user_roles =
      [{ user_id := 7, role := Role.atc }] := by
  decide

/-- C3: a call setting a runway to available while some non-terminal
flight is assigned to it takes the conflict branch and leaves the stored
state untouched; targets other than available are never rejected by this
guard. -/
theorem C3_available_guard (dbOk : Bool) (s : DBState) (uid rid : Nat)
    (h : Runways.hasActiveAssignment s rid = true) :
    (Runways.handleStatusChange dbOk s uid rid .available).conflict = true ∧
    (Runways.handleStatusChange dbOk s uid rid .available).state = s ∧
    ∀ ns : RunwayStatus, ns ≠ .available →
      (Runways.handleStatusChange dbOk s uid rid ns).conflict = false := by
  refine ⟨?_, ?_, ?_⟩
  · simp [Runways.handleStatusChange, h]
  · simp [Runways.handleStatusChange, h]
  · intro ns hns
    cases dbOk <;> simp [Runways.handleStatusChange, hns]

theorem C3_available_guard_witness :
    (Runways.handleStatusChange true baseState 1 10 .available).conflict =
      true ∧
    (Runways.handleStatusChange true baseState 1 10 .available).state =
      baseState :=
  ⟨(C3_available_guard true baseState 1 10 (by decide)).1,
   (C3_available_guard true baseState 1 10 (by decide)).2.1⟩

/-! Helper lemmas for the ticket-id claim. -/

theorem upperHexChar_isUpperAlnum (d : Nat) :
    isUpperAlnum (upperHexChar d) = true := by
  unfold upperHexChar
  split <;> decide

theorem genTicketId_toList (digest : List Nat) :
    (genTicketId digest).toList =
      'T' :: 'K' :: 'T' :: '-' :: (digest.take 8).map upperHexChar := rfl

theorem ticket_format (digest : List Nat) (h : 8 ≤ digest.length) :
    matchesTicketPattern (genTicketId digest) = true := by
  unfold matchesTicketPattern
  rw [genTicketId_toList]
  simp only [List.take_cons, List.drop_succ_cons, List.drop_zero,
    List.all_eq_true, Bool.and_eq_true, decide_eq_true_eq]
  refine ⟨⟨by simp, by simp [Nat.min_eq_left h]⟩, ?_⟩
  intro x hx
  rcases List.mem_map.mp hx with ⟨d, _, hd⟩
  exact hd ▸ upperHexChar_isUpperAlnum d

/-- The ticket_id column after a passengers-page save. -/
theorem handleSave_ticket_ids (dbOk : Bool) (s : DBState) (uid : Nat)
    (editId : Option Nat) (form : Passengers.Form) (digest : List Nat)
    (hnd : (s.passengers.map Passenger.ticket_id).Nodup) :
    ((Passengers.handleSave dbOk s uid editId form digest).passengers.map
      Passenger.ticket_id).Nodup := by
  cases hv : Passengers.formValid form with
  | false =>
      cases editId <;> simp only [Passengers.handleSave, hv] <;> exact hnd
  | true =>
      cases editId with
      | some pid =>
          cases dbOk with
          | false => simp only [Passengers.handleSave, hv]; exact hnd
          | true =>
              simp only [Passengers.handleSave, hv, Bool.not_true,
                Bool.false_eq_true, if_false, if_true, eq_self_iff_true,
                logActivity_passengers]
              rw [map_updateWhereId]
              · exact hnd
              · intro x
                rfl
      | none =>
          cases hg : dbOk &&
              !(s.passengers.any fun p =>
                decide (p.ticket_id = genTicketId digest)) with
          | false =>
              simp only [Passengers.handleSave, hv, hg]
              exact hnd
          | true =>
              simp only [Passengers.handleSave, hv, hg, if_true,
                Bool.not_true, Bool.false_eq_true, if_false,
                logActivity_passengers, List.map_append]
              rw [List.nodup_append]
              refine ⟨hnd, by simp, ?_⟩
              intro t ht ht'
              simp only [List.map_cons, List.map_nil,
                List.mem_singleton] at ht'
              subst ht'
              rcases List.mem_map.mp ht with ⟨p, hp, hpt⟩
              have hany : s.passengers.any
                  (fun p => decide (p.ticket_id = genTicketId digest)) =
                    true := by
                rw [List.any_eq_true]
                exact ⟨p, hp, by simp [hpt]⟩
              rw [Bool.and_eq_true, hany] at hg
              exact absurd hg.2 (by decide)

/-- C9: a ticket identifier produced by the schema default matches
`TKT-[A-Z0-9]{8}` whenever the md5 digest supplies its (at least 8)
hexadecimal digits, and — through the UNIQUE constraint, under which a
colliding insert fails — any passengers-page save keeps the stored ticket
identifiers pairwise distinct across all passengers. -/
theorem C9_ticket_format_and_unique :
    (∀ digest : List Nat, 8 ≤ digest.length →
      matchesTicketPattern (genTicketId digest) = true) ∧
    ∀ (dbOk : Bool) (s : DBState) (uid : Nat) (editId : Option Nat)
      (form : Passengers.Form) (digest : List Nat),
      (s.passengers.map Passenger.ticket_id).Nodup →
      ((Passengers.handleSave dbOk s uid editId form digest).passengers.map
        Passenger.ticket_id).Nodup :=
  ⟨ticket_format, handleSave_ticket_ids⟩

def pForm : Passengers.Form :=
  { flight_id := some 1, first_name := ("Ada"), last_name := ("Lee"),
    passport_number := ("P123"), seat_number := ("12A"),
    nationality := ("US"), boarding_status := .checked_in }

theorem C9_ticket_format_and_unique_witness :
    matchesTicketPattern (genTicketId [10, 11, 12, 13, 0, 1, 2, 3]) = true ∧
    ((Passengers.handleSave true baseState 1 none pForm
        [10, 11, 12, 13, 0, 1, 2, 3]).passengers.map
      Passenger.ticket_id).Nodup :=
  ⟨C9_ticket_format_and_unique.1 [10, 11, 12, 13, 0, 1, 2, 3] (by decide),
   C9_ticket_format_and_unique.2 true baseState 1 none pForm
     [10, 11, 12, 13, 0, 1, 2, 3] (by decide)⟩

/-- C10: with a non-null runway assignment and a release-list target
status, executeAction issues the runway update (to available) before the
flight-row update; when the flight update then fails, the runway rows with
that id are already available while the flights list, the activity log and
the alerts are all unchanged. -/
theorem C10_runway_release_precedes_failed_update
    (s : DBState) (uid : Nat) (now : Int) (fid : Nat) (title note : String)
    (ns : FlightStatus) (f : Flight) (rid : Nat)
    (hns : terminalStatus ns = true)
    (hf : s.flights.find? (fun g => decide (g.id = fid)) = some f)
    (hr : f.runway_id = some rid) :
    (ATCPanel.executeAction false s uid now fid title ns note).flights =
      s.flights ∧
    (∀ r ∈ (ATCPanel.executeAction false s uid now fid title ns note).runways,
      r.id = rid → r.status = .available) ∧
    (ATCPanel.executeAction false s uid now fid title ns note).activity_log =
      s.activity_log ∧
    (ATCPanel.executeAction false s uid now fid title ns note).alerts =
      s.alerts := by
  simp only [ATCPanel.executeAction, hf, hns, Option.bind, hr, if_true,
    eq_self_iff_true, Bool.false_eq_true, if_false]
  refine ⟨?_, updated_row_prop Runway.id (fun r => r.status = .available)
    s.runways rid _ (fun x _ => rfl), ?_, ?_⟩ <;> trivial

theorem C10_runway_release_precedes_failed_update_witness :
    (ATCPanel.executeAction false baseState 1 5000 1 ("Approve Takeoff")
      .departed ("")).flights = baseState.flights ∧
    (ATCPanel.executeAction false baseState 1 5000 1 ("Approve Takeoff")
      .departed ("")).activity_log = baseState.activity_log :=
  ⟨(C10_runway_release_precedes_failed_update baseState 1 5000 1
      ("Approve Takeoff") ("") .departed flight1 10 (by decide) (by decide)
      (by decide)).1,
   (C10_runway_release_precedes_failed_update baseState 1 5000 1
      ("Approve Takeoff") ("") .departed flight1 10 (by decide) (by decide)
      (by decide)).2.2.1⟩

/-- C2 (amended): on the ATC-confirmed path, transitioning a flight that
holds a runway to departed or landed nulls the flight's runway_id and sets
that runway's status to available; the direct status-change path of the
flights page, by contrast, updates only the status field, leaving every
runway row and every flight's runway_id unchanged. -/
theorem C2_atc_path_releases_runway
    (s : DBState) (uid : Nat) (now : Int) (fid : Nat) (title note : String)
    (ns : FlightStatus) (f : Flight) (rid : Nat)
    (hns : ns = .departed ∨ ns = .landed)
    (hf : s.flights.find? (fun g => decide (g.id = fid)) = some f)
    (hr : f.runway_id = some rid) :
    (∀ g ∈ (ATCPanel.executeAction true s uid now fid title ns note).flights,
      g.id = fid → g.runway_id = none) ∧
    (∀ r ∈ (ATCPanel.executeAction true s uid now fid title ns note).runways,
      r.id = rid → r.status = .available) ∧
    ∀ (s₂ : DBState) (uid₂ fid₂ : Nat) (ns₂ : FlightStatus),
      (Flights.handleStatusChange true s₂ uid₂ fid₂ ns₂).runways =
        s₂.runways ∧
      (Flights.handleStatusChange true s₂ uid₂ fid₂ ns₂).flights.map
        Flight.runway_id = s₂.flights.map Flight.runway_id := by
  refine ⟨?_, ?_, ?_⟩
  · rcases hns with h | h <;> subst h <;>
    · simp only [ATCPanel.executeAction, hf, Option.bind, hr,
        logActivity_flights]
      exact updated_row_prop Flight.id (fun g => g.runway_id = none)
        s.flights fid _ (fun x _ => rfl)
  · rcases hns with h | h <;> subst h <;>
    · simp only [ATCPanel.executeAction, hf, Option.bind, hr,
        logActivity_runways]
      exact updated_row_prop Runway.id (fun r => r.status = .available)
        s.runways rid _ (fun x _ => rfl)
  · intro s₂ uid₂ fid₂ ns₂
    refine ⟨rfl, ?_⟩
    simp only [Flights.handleStatusChange, if_true, eq_self_iff_true,
      logActivity_flights]
    exact map_updateWhereId Flight.id Flight.runway_id s₂.flights fid₂ _
      (fun x => rfl)

theorem C2_atc_path_releases_runway_witness :
    ({ flight1 with
        status := .departed, actual_departure := some 5000,
        runway_id := none } : Flight).runway_id = none ∧
    ({ runway1 with status := .available } : Runway).status = .available :=
  ⟨(C2_atc_path_releases_runway baseState 1 5000 1 ("Approve Takeoff") ("")
      .departed flight1 10 (Or.inl rfl) (by decide) (by decide)).1
      _ (by decide) (by decide),
   (C2_atc_path_releases_runway baseState 1 5000 1 ("Approve Takeoff") ("")
      .departed flight1 10 (Or.inl rfl) (by decide) (by decide)).2.1
      _ (by decide) (by decide)⟩

/-- Applying an id-preserving, idempotent update twice equals applying it
once. -/
theorem updateWhereId_idem {α : Type} (idOf : α → Nat) (xs : List α)
    (i : Nat) (u : α → α) (hu : ∀ x, idOf (u x) = idOf x)
    (hid : ∀ x, u (u x) = u x) :
    updateWhereId idOf (updateWhereId idOf xs i u) i u =
      updateWhereId idOf xs i u := by
  induction xs with
  | nil => rfl
  | cons a as ih =>
      by_cases ha : idOf a = i
      · simp [ha, hu, hid, ih]
      · simp [ha, ih]

/-- C5 (amended): the ATC-confirmed path maintains the stamping/clearing
step of the invariant: a successful executeAction stamps actual_departure
when the target is departed, stamps actual_arrival when the target is
landed, and nulls runway_id when the target is in the release list and the
flight held a runway.  (The direct status-change and edit paths perform
none of these side effects, so the invariant fails on reachable states —
see the counterexample.) -/
theorem C5_atc_step_invariant
    (s : DBState) (uid : Nat) (now : Int) (fid : Nat) (title note : String)
    (ns : FlightStatus) (f : Flight)
    (hf : s.flights.find? (fun g => decide (g.id = fid)) = some f) :
    (ns = .departed →
      ∀ g ∈ (ATCPanel.executeAction true s uid now fid title ns
          note).flights, g.id = fid → g.actual_departure = some now) ∧
    (ns = .landed →
      ∀ g ∈ (ATCPanel.executeAction true s uid now fid title ns
          note).flights, g.id = fid → g.actual_arrival = some now) ∧
    (terminalStatus ns = true → ∀ rid : Nat, f.runway_id = some rid →
      ∀ g ∈ (ATCPanel.executeAction true s uid now fid title ns
          note).flights, g.id = fid → g.runway_id = none) := by
  refine ⟨?_, ?_, ?_⟩
  · intro h
    subst h
    cases hrw : f.runway_id <;>
    · simp only [ATCPanel.executeAction, hf, terminalStatus, Option.bind,
        hrw, eq_self_iff_true, if_true, logActivity_flights]
      exact updated_row_prop Flight.id
        (fun g => g.actual_departure = some now) s.flights fid _
        (fun x _ => rfl)
  · intro h
    subst h
    cases hrw : f.runway_id <;>
    · simp only [ATCPanel.executeAction, hf, terminalStatus, Option.bind,
        hrw, eq_self_iff_true, if_true, logActivity_flights]
      exact updated_row_prop Flight.id
        (fun g => g.actual_arrival = some now) s.flights fid _
        (fun x _ => rfl)
  · intro hns rid hrw
    simp only [ATCPanel.executeAction, hf, hns, Option.bind, hrw,
      eq_self_iff_true, if_true, logActivity_flights]
    split <;>
      exact updated_row_prop Flight.id (fun g => g.runway_id = none)
        s.flights fid _ (fun x _ => rfl)

theorem C5_atc_step_invariant_witness :
    ({ flight1 with
        status := .departed, actual_departure := some 5000,
        runway_id := none } : Flight).actual_departure = some 5000 :=
  (C5_atc_step_invariant baseState 1 5000 1 ("Approve Takeoff") ("")
      .departed flight1 (by decide)).1 rfl _ (by decide) (by decide)

/-- C4 (amended): acknowledgeAlert is unguarded — it unconditionally sets
is_acknowledged, sets acknowledged_by to the caller and acknowledged_at to
the call time, and clears is_active; repeating the call with the same
caller and timestamp leaves the alerts unchanged, but a second call with a
different caller or time overwrites acknowledged_by/acknowledged_at (see
the counterexample), and no call ever fails with a conflict. -/
theorem C4_ack_unconditional_overwrite
    (s : DBState) (uid : Nat) (now : Int) (aid : Nat) :
    (∀ a ∈ (Alerts.handleAcknowledge true s uid now aid).alerts,
      a.id = aid →
        a.is_acknowledged = true ∧ a.acknowledged_by = some uid ∧
        a.acknowledged_at = some now ∧ a.is_active = false) ∧
    (Alerts.handleAcknowledge true (Alerts.handleAcknowledge true s uid now
        aid) uid now aid).alerts =
      (Alerts.handleAcknowledge true s uid now aid).alerts := by
  constructor
  · simp only [Alerts.handleAcknowledge, if_true, eq_self_iff_true,
      logActivity_alerts]
    exact updated_row_prop Alert.id
      (fun a => a.is_acknowledged = true ∧ a.acknowledged_by = some uid ∧
        a.acknowledged_at = some now ∧ a.is_active = false)
      s.alerts aid _ (fun x _ => ⟨rfl, rfl, rfl, rfl⟩)
  · simp only [Alerts.handleAcknowledge, if_true, eq_self_iff_true,
      logActivity_alerts]
    exact updateWhereId_idem Alert.id s.alerts aid _ (fun x => rfl)
      (fun x => rfl)

theorem C4_ack_unconditional_overwrite_witness :
    ({ ackAlert with
        acknowledged_by := some 2, acknowledged_at := some 200,
        is_acknowledged := true, is_active := false } : Alert).acknowledged_by
      = some 2 ∧
    (Alerts.handleAcknowledge true (Alerts.handleAcknowledge true ackState 2
        200 5) 2 200 5).alerts =
      (Alerts.handleAcknowledge true ackState 2 200 5).alerts :=
  ⟨((C4_ack_unconditional_overwrite ackState 2 200 5).1 _ (by decide)
      (by decide)).2.1,
   (C4_ack_unconditional_overwrite ackState 2 200 5).2⟩

/-- C6: delaying a flight by m minutes (the claim range is m at least 5,
UI default `defaultDelayMinutes` = 30) with a non-empty reason sets the
status to delayed, shifts both schedule fields forward by exactly
m * 60000 milliseconds — leaving the interval between them unchanged —
stores the reason in notes, and emits exactly one warning alert plus one
activity-log entry. -/
theorem C6_delay_shifts_and_alerts
    (s : DBState) (uid : Nat) (f : Flight) (m : Int) (reason : String)
    (_hm : 5 ≤ m) (hr : reason ≠ ("")) :
    (∀ g ∈ (ATCPanel.handleDelay true s uid f m reason).flights,
      g.id = f.id →
        g.status = .delayed ∧
        g.scheduled_departure = f.scheduled_departure + m * 60000 ∧
        g.scheduled_arrival = f.scheduled_arrival + m * 60000 ∧
        g.notes = some reason) ∧
    (f.scheduled_arrival + m * 60000) - (f.scheduled_departure + m * 60000)
      = f.scheduled_arrival - f.scheduled_departure ∧
    (∃ a : Alert, (ATCPanel.handleDelay true s uid f m reason).alerts =
      s.alerts ++ [a] ∧ a.severity = .warning) ∧
    (ATCPanel.handleDelay true s uid f m reason).activity_log.length =
      s.activity_log.length + 1 := by
  refine ⟨?_, by ring, ?_, ?_⟩
  · simp only [ATCPanel.handleDelay, if_true, eq_self_iff_true,
      logActivity_flights]
    refine updated_row_prop Flight.id _ s.flights f.id _ ?_
    intro x _
    refine ⟨rfl, rfl, rfl, ?_⟩
    simp [hr]
  · exact ⟨_, rfl, rfl⟩
  · simp [ATCPanel.handleDelay]

theorem C6_delay_shifts_and_alerts_witness :
    ({ flight1 with
        status := .delayed,
        scheduled_departure := flight1.scheduled_departure + 30 * 60000,
        scheduled_arrival := flight1.scheduled_arrival + 30 * 60000,
        notes := some ("Weather") } : Flight).status = .delayed ∧
    (ATCPanel.handleDelay true baseState 1 flight1 30
        ("Weather")).activity_log.length =
      baseState.activity_log.length + 1 :=
  ⟨((C6_delay_shifts_and_alerts baseState 1 flight1 30 ("Weather")
      (by decide) (by decide)).1 _ (by decide) (by decide)).1,
   (C6_delay_shifts_and_alerts baseState 1 flight1 30 ("Weather")
      (by decide) (by decide)).2.2.2⟩

/-- C7 (amended): every boundary mutation handler except setRole appends
exactly one activity-log entry on success and none on failure (store
error, validation failure, or the runway-availability conflict); setRole
(Admin.handleRoleChange) appends none even on success — see the
counterexample. -/
theorem C7_log_discipline :
    (∀ (s : DBState) (uid : Nat) (editId : Option Nat)
        (form : Flights.Form),
      (Flights.handleSave true s uid editId form).activity_log.length =
        (if Flights.formValid form then s.activity_log.length + 1
         else s.activity_log.length) ∧
      (Flights.handleSave false s uid editId form).activity_log.length =
        s.activity_log.length) ∧
    (∀ (s : DBState) (uid fid : Nat),
      (Flights.handleDelete true s uid fid).activity_log.length =
        s.activity_log.length + 1 ∧
      (Flights.handleDelete false s uid fid).activity_log.length =
        s.activity_log.length) ∧
    (∀ (s : DBState) (uid fid : Nat) (ns : FlightStatus),
      (Flights.handleStatusChange true s uid fid ns).activity_log.length =
        s.activity_log.length + 1 ∧
      (Flights.handleStatusChange false s uid fid ns).activity_log.length =
        s.activity_log.length) ∧
    (∀ (s : DBState) (uid : Nat) (editId : Option Nat)
        (form : Runways.Form),
      (Runways.handleSave true s uid editId form).activity_log.length =
        (if form.name = ("") then s.activity_log.length
         else s.activity_log.length + 1) ∧
      (Runways.handleSave false s uid editId form).activity_log.length =
        s.activity_log.length) ∧
    (∀ (s : DBState) (uid rid : Nat),
      (Runways.handleDelete true s uid rid).activity_log.length =
        s.activity_log.length + 1 ∧
      (Runways.handleDelete false s uid rid).activity_log.length =
        s.activity_log.length) ∧
    (∀ (s : DBState) (uid rid : Nat) (ns : RunwayStatus),
      (Runways.handleStatusChange true s uid rid
          ns).state.activity_log.length =
        (if decide (ns = .available) && Runways.hasActiveAssignment s rid
         then s.activity_log.length else s.activity_log.length + 1) ∧
      (Runways.handleStatusChange false s uid rid
          ns).state.activity_log.length = s.activity_log.length) ∧
    (∀ (s : DBState) (uid : Nat) (editId : Option Nat)
        (form : Passengers.Form) (digest : List Nat),
      (Passengers.handleSave true s uid editId form
          digest).activity_log.length =
        (if Passengers.formValid form then
          (match editId with
           | some _ => s.activity_log.length + 1
           | none =>
               if s.passengers.any
                   (fun p => decide (p.ticket_id = genTicketId digest))
               then s.activity_log.length
               else s.activity_log.length + 1)
         else s.activity_log.length) ∧
      (Passengers.handleSave false s uid editId form
          digest).activity_log.length = s.activity_log.length) ∧
    (∀ (s : DBState) (uid pid : Nat),
      (Passengers.handleDelete true s uid pid).activity_log.length =
        s.activity_log.length + 1 ∧
      (Passengers.handleDelete false s uid pid).activity_log.length =
        s.activity_log.length) ∧
    (∀ (s : DBState) (uid pid : Nat) (ns : BoardingStatus),
      (Passengers.handleBoardingUpdate true s uid pid
          ns).activity_log.length = s.activity_log.length + 1 ∧
      (Passengers.handleBoardingUpdate false s uid pid
          ns).activity_log.length = s.activity_log.length) ∧
    (∀ (s : DBState) (uid : Nat) (now : Int) (aid : Nat),
      (Alerts.handleAcknowledge true s uid now aid).activity_log.length =
        s.activity_log.length + 1 ∧
      (Alerts.handleAcknowledge false s uid now aid).activity_log.length =
        s.activity_log.length) ∧
    (∀ (s : DBState) (uid : Nat) (title message : String)
        (sev : AlertSeverity) (fid : Option Nat),
      (Alerts.handleCreate true s uid title message sev
          fid).activity_log.length =
        (if title = ("") ∨ message = ("") then s.activity_log.length
         else s.activity_log.length + 1) ∧
      (Alerts.handleCreate false s uid title message sev
          fid).activity_log.length = s.activity_log.length) ∧
    (∀ (s : DBState) (uid : Nat) (now : Int) (fid : Nat)
        (title note : String) (ns : FlightStatus),
      (ATCPanel.executeAction true s uid now fid title ns
          note).activity_log.length = s.activity_log.length + 1 ∧
      (ATCPanel.executeAction false s uid now fid title ns
          note).activity_log.length = s.activity_log.length) ∧
    (∀ (s : DBState) (uid : Nat) (f : Flight) (m : Int) (reason : String),
      (ATCPanel.handleDelay true s uid f m reason).activity_log.length =
        s.activity_log.length + 1 ∧
      (ATCPanel.handleDelay false s uid f m reason).activity_log.length =
        s.activity_log.length) ∧
    (∀ (s : DBState) (uid : Nat) (role : Role),
      (Admin.handleRoleChange true s uid role).activity_log.length =
        s.activity_log.length ∧
      (Admin.handleRoleChange false s uid role).activity_log.length =
        s.activity_log.length) := by
  refine ⟨?_, ?_, ?_, ?_, ?_, ?_, ?_, ?_, ?_, ?_, ?_, ?_, ?_, ?_⟩
  · intro s uid editId form
    cases hv : Flights.formValid form <;> cases editId <;>
      simp [Flights.handleSave, hv]
  · intro s uid fid
    constructor <;> simp [Flights.handleDelete]
  · intro s uid fid ns
    constructor <;> simp [Flights.handleStatusChange]
  · intro s uid editId form
    by_cases hn : form.name = ("") <;> cases editId <;>
      simp [Runways.handleSave, hn]
  · intro s uid rid
    constructor <;> simp [Runways.handleDelete]
  · intro s uid rid ns
    cases hg : decide (ns = .available) && Runways.hasActiveAssignment s rid
      <;> simp [Runways.handleStatusChange, hg]
  · intro s uid editId form digest
    cases hv : Passengers.formValid form
    · cases editId <;> simp [Passengers.handleSave, hv]
    · cases editId with
      | some pid => simp [Passengers.handleSave, hv]
      | none =>
          cases hany : s.passengers.any
              (fun p => decide (p.ticket_id = genTicketId digest)) <;>
            simp [Passengers.handleSave, hv, hany]
  · intro s uid pid
    constructor <;> simp [Passengers.handleDelete]
  · intro s uid pid ns
    constructor <;> simp [Passengers.handleBoardingUpdate]
  · intro s uid now aid
    constructor <;> simp [Alerts.handleAcknowledge]
  · intro s uid title message sev fid
    by_cases ht : title = ("")
    · simp [Alerts.handleCreate, ht]
    · by_cases hmsg : message = ("")
      · simp [Alerts.handleCreate, ht, hmsg]
      · simp [Alerts.handleCreate, ht, hmsg]
  · intro s uid now fid title note ns
    constructor
    · simp only [ATCPanel.executeAction, eq_self_iff_true, if_true]
      split <;> split <;> simp
    · simp only [ATCPanel.executeAction, Bool.false_eq_true, if_false]
      split <;> simp
  · intro s uid f m reason
    constructor <;> simp [ATCPanel.handleDelay]
  · intro s uid role
    constructor <;>
      · simp only [Admin.handleRoleChange]
        split <;> first
          | rfl
          | split <;> rfl
